import Mathlib

/-!
Shallow embedding of `src/agent.py` from the `gcp-vm-agent` repository.

The module defines four operations — `create_gcp_vm`, `start_gcp_vm`,
`stop_gcp_vm`, `delete_gcp_vm` — each of which builds a child-process
invocation for the external `gcloud` provisioning tool and normalizes the
child-process outcome into a result record.

The child process itself is external to the program, so each operation is
parametrized by an oracle `run : Invocation → Outcome` giving the outcome
of an invocation.  Each operation returns the result record together with
the list of invocations it issued (empty when validation failed before the
child process was started), so that theorems can speak both about the
result and about what was executed and how.
-/

namespace Agent

/-- How a child process is invoked.

* `argvRun args captureText timeoutSec` models
  `subprocess.run(args, capture_output=True, text=captureText, check=False,
  timeout=timeoutSec)`: argument-list form, no shell interpretation.
* `shellPopen cmd timeoutSec` models
  `subprocess.Popen(cmd, shell=True, stdout=PIPE, stderr=PIPE)` followed by
  `process.communicate(timeout=timeoutSec)`: a single shell-interpreted
  command string. -/
inductive Invocation where
  | argvRun (args : List String) (captureText : Bool) (timeoutSec : Nat)
  | shellPopen (cmd : String) (timeoutSec : Nat)
deriving Repr, DecidableEq

/-- The outcome of executing a child process, as seen by the Python code.

* `completed returncode out err`: the process ran to completion with the
  given exit code, standard output and standard error.
* `timeoutExpired`: `subprocess.TimeoutExpired` was raised.
* `fileNotFound msg`: `FileNotFoundError` was raised; `msg` is the
  exception's text (`str(e)`).
* `otherExc msg`: any other exception was raised; `msg` is `str(e)`. -/
inductive Outcome where
  | completed (returncode : Int) (out : String) (err : String)
  | timeoutExpired
  | fileNotFound (msg : String)
  | otherExc (msg : String)
deriving Repr, DecidableEq

/-- The result dictionary returned by every operation.  The Python code
returns a `dict` whose keys vary by path; each optional key is modelled as
an `Option` field, `none` meaning the key is absent. -/
structure Result where
  status : String
  result : Option String := none
  error_message : Option String := none
  stdout : Option String := none
  stderr : Option String := none
deriving Repr, DecidableEq

/-- `str(subprocess.TimeoutExpired(cmd, t))` as produced by CPython:
`"Command '%s' timed out after %s seconds" % (cmd, timeout)`. -/
def timeoutExpiredStr (cmd : String) (t : Nat) : String :=
  "Command '" ++ cmd ++ "' timed out after " ++ toString t ++ " seconds"

/-- Default value of `create_gcp_vm`'s `network` parameter. -/
def default_network : String := "test"

/-- Default value of `create_gcp_vm`'s `subnetwork` parameter. -/
def default_subnetwork : String := "test1"

/-- Default value of `create_gcp_vm`'s `machine_type` parameter. -/
def default_machine_type : String := "n1-standard-1"

/-- Default value of `create_gcp_vm`'s `image_family` parameter. -/
def default_image_family : String := "debian-11"

/-- Default value of `create_gcp_vm`'s `image_project` parameter. -/
def default_image_project : String := "debian-cloud"

/-- The base command parts built by `create_gcp_vm` before the
network/subnetwork configuration is appended (`src/agent.py` lines 46-54). -/
def createBaseParts (project_id zone vm_name machine_type image_family
    image_project : String) : List String :=
  ["gcloud", "compute", "instances", "create", vm_name,
    "--project=" ++ project_id,
    "--zone=" ++ zone,
    "--machine-type=" ++ machine_type,
    "--image-family=" ++ image_family,
    "--image-project=" ++ image_project,
    "--quiet"]

/-- The part of `create_gcp_vm` after the command parts and the
`network_info` description have been fixed: run the child process and
normalize the outcome (`src/agent.py` lines 72-114). -/
def createExec (vm_name zone network_info : String)
    (command_parts : List String) (run : Invocation → Outcome) :
    Result × List Invocation :=
  let inv := Invocation.argvRun command_parts true 180
  match run inv with
  | .completed returncode out err =>
    if returncode == 0 then
      let base_message := "Successfully created VM '" ++ vm_name ++
        "' in zone '" ++ zone ++ "'"
      let success_message :=
        if network_info ≠ "" then base_message ++ " on " ++ network_info ++ "."
        else base_message ++ "."
      ({ status := "success", result := some success_message,
         stdout := some out.trim }, [inv])
    else
      let error_message := err.trim
      ({ status := "error",
         error_message := some ("Failed to create VM '" ++ vm_name ++ "': " ++
           error_message),
         stderr := some error_message }, [inv])
  | .timeoutExpired =>
      ({ status := "error",
         error_message := some ("Timeout occurred while trying to create VM '" ++
           vm_name ++ "'.") }, [inv])
  | .fileNotFound _ =>
      ({ status := "error",
         error_message := some ("Error: 'gcloud' command not found. Make sure Google Cloud SDK is installed and in your PATH.") }, [inv])
  | .otherExc msg =>
      ({ status := "error",
         error_message := some ("An unexpected error occurred: " ++ msg) }, [inv])

/-- `create_gcp_vm` from `src/agent.py`.  Builds the argument list for
`gcloud compute instances create`, selects the network or subnetwork
(Python truthiness of a string is `≠ ""`), runs the child process and
normalizes the outcome.  Returns the result record and the list of issued
invocations (empty when the validation error fires before execution). -/
def create_gcp_vm (project_id zone vm_name network subnetwork machine_type
    image_family image_project : String) (run : Invocation → Outcome) :
    Result × List Invocation :=
  let base := createBaseParts project_id zone vm_name machine_type
    image_family image_project
  if subnetwork ≠ "" then
    createExec vm_name zone ("subnet '" ++ subnetwork ++ "'")
      (base ++ ["--subnet=" ++ subnetwork]) run
  else if network ≠ "" then
    createExec vm_name zone ("network '" ++ network ++ "'")
      (base ++ ["--network=" ++ network]) run
  else
    ({ status := "error",
       error_message := some "Network or Subnetwork must be specified." }, [])

/-- The shell command string built by `start_gcp_vm` (`src/agent.py`
line 128). -/
def startCommand (project_id vm_name zone : String) : String :=
  "gcloud compute instances start " ++ vm_name ++ " --project=" ++ project_id ++
    " --zone=" ++ zone

/-- `start_gcp_vm` from `src/agent.py`: shell-interpreted invocation with a
60-second timeout; every exception is caught by the single generic handler
(`except Exception as e`), including `subprocess.TimeoutExpired`, whose text
is `timeoutExpiredStr command 60`. -/
def start_gcp_vm (project_id vm_name zone : String)
    (run : Invocation → Outcome) : Result × List Invocation :=
  let command := startCommand project_id vm_name zone
  let inv := Invocation.shellPopen command 60
  match run inv with
  | .completed returncode _ err =>
    if returncode == 0 then
      ({ status := "success",
         result := some ("Successfully started VM '" ++ vm_name ++
           "' in zone '" ++ zone ++ "'.") }, [inv])
    else
      ({ status := "error",
         error_message := some ("Failed to start VM '" ++ vm_name ++ "': " ++
           err.trim) }, [inv])
  | .timeoutExpired =>
      ({ status := "error",
         error_message := some ("An error occurred: " ++
           timeoutExpiredStr command 60) }, [inv])
  | .fileNotFound msg =>
      ({ status := "error",
         error_message := some ("An error occurred: " ++ msg) }, [inv])
  | .otherExc msg =>
      ({ status := "error",
         error_message := some ("An error occurred: " ++ msg) }, [inv])

/-- The shell command string built by `stop_gcp_vm` (`src/agent.py`
line 152). -/
def stopCommand (project_id vm_name zone : String) : String :=
  "gcloud compute instances stop " ++ vm_name ++ " --project=" ++ project_id ++
    " --zone=" ++ zone ++ " --quiet"

/-- `stop_gcp_vm` from `src/agent.py`: like `start_gcp_vm`, but the command
additionally passes `--quiet`. -/
def stop_gcp_vm (project_id vm_name zone : String)
    (run : Invocation → Outcome) : Result × List Invocation :=
  let command := stopCommand project_id vm_name zone
  let inv := Invocation.shellPopen command 60
  match run inv with
  | .completed returncode _ err =>
    if returncode == 0 then
      ({ status := "success",
         result := some ("Successfully stopped VM '" ++ vm_name ++
           "' in zone '" ++ zone ++ "'.") }, [inv])
    else
      ({ status := "error",
         error_message := some ("Failed to stop VM '" ++ vm_name ++ "': " ++
           err.trim) }, [inv])
  | .timeoutExpired =>
      ({ status := "error",
         error_message := some ("An error occurred: " ++
           timeoutExpiredStr command 60) }, [inv])
  | .fileNotFound msg =>
      ({ status := "error",
         error_message := some ("An error occurred: " ++ msg) }, [inv])
  | .otherExc msg =>
      ({ status := "error",
         error_message := some ("An error occurred: " ++ msg) }, [inv])

/-- The shell command string built by `delete_gcp_vm` (`src/agent.py`
line 176). -/
def deleteCommand (project_id vm_name zone : String) : String :=
  "gcloud compute instances delete " ++ vm_name ++ " --project=" ++
    project_id ++ " --zone=" ++ zone ++ " --quiet"

/-- `delete_gcp_vm` from `src/agent.py`: like `stop_gcp_vm` with the
`delete` subcommand. -/
def delete_gcp_vm (project_id vm_name zone : String)
    (run : Invocation → Outcome) : Result × List Invocation :=
  let command := deleteCommand project_id vm_name zone
  let inv := Invocation.shellPopen command 60
  match run inv with
  | .completed returncode _ err =>
    if returncode == 0 then
      ({ status := "success",
         result := some ("Successfully deleted VM '" ++ vm_name ++
           "' in zone '" ++ zone ++ "'.") }, [inv])
    else
      ({ status := "error",
         error_message := some ("Failed to delete VM '" ++ vm_name ++ "': " ++
           err.trim) }, [inv])
  | .timeoutExpired =>
      ({ status := "error",
         error_message := some ("An error occurred: " ++
           timeoutExpiredStr command 60) }, [inv])
  | .fileNotFound msg =>
      ({ status := "error",
         error_message := some ("An error occurred: " ++ msg) }, [inv])
  | .otherExc msg =>
      ({ status := "error",
         error_message := some ("An error occurred: " ++ msg) }, [inv])

/-! ### Helper lemmas about strings -/

/-- Two appends differ when the left parts differ within their common
prefix of length `k`. -/
theorem append_ne_take (p q x y : String) (k : Nat)
    (hkp : k ≤ p.data.length) (hkq : k ≤ q.data.length)
    (hne : p.data.take k ≠ q.data.take k) : p ++ x ≠ q ++ y := by
  intro h
  apply hne
  have hd : p.data ++ x.data = q.data ++ y.data := by
    have h2 := congrArg String.data h
    simpa [String.data_append] using h2
  calc p.data.take k = (p.data ++ x.data).take k := by
        rw [List.take_append_eq_append_take, Nat.sub_eq_zero_of_le hkp,
          List.take_zero, List.append_nil]
    _ = (q.data ++ y.data).take k := by rw [hd]
    _ = q.data.take k := by
        rw [List.take_append_eq_append_take, Nat.sub_eq_zero_of_le hkq,
          List.take_zero, List.append_nil]

/-- An append whose left part is longer than `c` is not `c`. -/
theorem append_ne_lit (p x c : String) (h : c.length < p.length) : p ++ x ≠ c := by
  intro hEq
  have hl := congrArg String.length hEq
  rw [String.length_append] at hl
  omega

/-- An append whose right part is nonempty is nonempty. -/
theorem append_lit_ne_empty (x p : String) (hp : p ≠ "") : x ++ p ≠ "" := by
  intro h
  apply hp
  have hd := congrArg String.data h
  rw [String.data_append] at hd
  exact String.ext (List.append_eq_nil.mp hd).2

/-! ### Helper lemmas about the operations -/

/-- `createExec` always issues exactly one argument-list invocation with
text capture and the 180-second timeout. -/
theorem createExec_trace (vm_name zone network_info : String)
    (command_parts : List String) (run : Invocation → Outcome) :
    (createExec vm_name zone network_info command_parts run).2 =
      [Invocation.argvRun command_parts true 180] := by
  unfold createExec
  cases h : run (Invocation.argvRun command_parts true 180) with
  | completed rc out err => by_cases h0 : rc = 0 <;> simp [h, h0]
  | timeoutExpired => simp [h]
  | fileNotFound msg => simp [h]
  | otherExc msg => simp [h]

/-- The result record of `createExec`, on every child-process outcome, has
status `success` or `error`, an error message when status is `error`, a
result message when status is `success`, `stdout` exactly on success, and
`stderr` exactly on a non-zero exit. -/
theorem createExec_shape (vm_name zone network_info : String)
    (command_parts : List String) (run : Invocation → Outcome) :
    ((createExec vm_name zone network_info command_parts run).1.status = "success" ∨
      (createExec vm_name zone network_info command_parts run).1.status = "error") ∧
    ((createExec vm_name zone network_info command_parts run).1.status = "error" →
      ((createExec vm_name zone network_info command_parts run).1.error_message).isSome) ∧
    ((createExec vm_name zone network_info command_parts run).1.status = "success" →
      ((createExec vm_name zone network_info command_parts run).1.result).isSome) ∧
    (((createExec vm_name zone network_info command_parts run).1.stdout).isSome ↔
      (createExec vm_name zone network_info command_parts run).1.status = "success") ∧
    (((createExec vm_name zone network_info command_parts run).1.stderr).isSome →
      (createExec vm_name zone network_info command_parts run).1.status = "error" ∧
      ∃ rc out err, run (Invocation.argvRun command_parts true 180) =
          Outcome.completed rc out err ∧ rc ≠ 0 ∧
        (createExec vm_name zone network_info command_parts run).1.stderr =
          some err.trim) := by
  unfold createExec
  cases h : run (Invocation.argvRun command_parts true 180) with
  | completed rc out err =>
    by_cases h0 : rc = 0
    · simp [h, h0]
    · simp [h, h0]
      exact ⟨rc, out, err, ⟨rfl, rfl, rfl⟩, h0, rfl⟩
  | timeoutExpired => simp [h]
  | fileNotFound msg => simp [h]
  | otherExc msg => simp [h]

/-- `createExec` on a zero exit code with a nonempty network description. -/
theorem createExec_zero (vm_name zone network_info : String)
    (command_parts : List String) (run : Invocation → Outcome)
    (out err : String)
    (h : run (Invocation.argvRun command_parts true 180) =
      Outcome.completed 0 out err) (hni : network_info ≠ "") :
    (createExec vm_name zone network_info command_parts run).1 =
      { status := "success",
        result := some ("Successfully created VM '" ++ vm_name ++
          "' in zone '" ++ zone ++ "'" ++ " on " ++ network_info ++ "."),
        stdout := some out.trim } := by
  unfold createExec
  simp [h, hni]

/-- `createExec` on a non-zero exit code. -/
theorem createExec_nonzero (vm_name zone network_info : String)
    (command_parts : List String) (run : Invocation → Outcome)
    (rc : Int) (out err : String)
    (h : run (Invocation.argvRun command_parts true 180) =
      Outcome.completed rc out err) (hrc : rc ≠ 0) :
    (createExec vm_name zone network_info command_parts run).1 =
      { status := "error",
        error_message := some ("Failed to create VM '" ++ vm_name ++ "': " ++
          err.trim),
        stderr := some err.trim } := by
  unfold createExec
  simp [h, hrc]

/-- `createExec` on a timeout. -/
theorem createExec_timeout (vm_name zone network_info : String)
    (command_parts : List String) (run : Invocation → Outcome)
    (h : run (Invocation.argvRun command_parts true 180) =
      Outcome.timeoutExpired) :
    (createExec vm_name zone network_info command_parts run).1 =
      { status := "error",
        error_message := some ("Timeout occurred while trying to create VM '" ++
          vm_name ++ "'.") } := by
  unfold createExec
  simp [h]

/-- `createExec` on a missing binary. -/
theorem createExec_fnf (vm_name zone network_info : String)
    (command_parts : List String) (run : Invocation → Outcome) (msg : String)
    (h : run (Invocation.argvRun command_parts true 180) =
      Outcome.fileNotFound msg) :
    (createExec vm_name zone network_info command_parts run).1 =
      { status := "error",
        error_message := some "Error: 'gcloud' command not found. Make sure Google Cloud SDK is installed and in your PATH." } := by
  unfold createExec
  simp [h]

/-- `createExec` on any other exception. -/
theorem createExec_exc (vm_name zone network_info : String)
    (command_parts : List String) (run : Invocation → Outcome) (msg : String)
    (h : run (Invocation.argvRun command_parts true 180) =
      Outcome.otherExc msg) :
    (createExec vm_name zone network_info command_parts run).1 =
      { status := "error",
        error_message := some ("An unexpected error occurred: " ++ msg) } := by
  unfold createExec
  simp [h]

/-- When `subnetwork` is non-empty (truthy), `create_gcp_vm` runs
`createExec` on the base parts plus the subnet selector. -/
theorem create_gcp_vm_subnet (project_id zone vm_name network subnetwork
    machine_type image_family image_project : String)
    (run : Invocation → Outcome) (hsub : subnetwork ≠ "") :
    create_gcp_vm project_id zone vm_name network subnetwork machine_type
        image_family image_project run =
      createExec vm_name zone ("subnet '" ++ subnetwork ++ "'")
        (createBaseParts project_id zone vm_name machine_type image_family
          image_project ++ ["--subnet=" ++ subnetwork]) run := by
  unfold create_gcp_vm
  simp [hsub]

/-- When `subnetwork` is empty and `network` is non-empty, `create_gcp_vm`
runs `createExec` on the base parts plus the network selector. -/
theorem create_gcp_vm_network (project_id zone vm_name network subnetwork
    machine_type image_family image_project : String)
    (run : Invocation → Outcome) (hsub : subnetwork = "") (hnet : network ≠ "") :
    create_gcp_vm project_id zone vm_name network subnetwork machine_type
        image_family image_project run =
      createExec vm_name zone ("network '" ++ network ++ "'")
        (createBaseParts project_id zone vm_name machine_type image_family
          image_project ++ ["--network=" ++ network]) run := by
  unfold create_gcp_vm
  simp [hsub, hnet]

/-- When both `subnetwork` and `network` are empty, `create_gcp_vm` returns
the validation error and issues no invocation. -/
theorem create_gcp_vm_invalid (project_id zone vm_name network subnetwork
    machine_type image_family image_project : String)
    (run : Invocation → Outcome) (hsub : subnetwork = "") (hnet : network = "") :
    create_gcp_vm project_id zone vm_name network subnetwork machine_type
        image_family image_project run =
      ({ status := "error",
         error_message := some "Network or Subnetwork must be specified." },
       []) := by
  unfold create_gcp_vm
  simp [hsub, hnet]

/-- `start_gcp_vm` always issues exactly one shell-interpreted invocation
with the 60-second timeout, and its result record is well shaped. -/
theorem start_shape (project_id vm_name zone : String)
    (run : Invocation → Outcome) :
    (start_gcp_vm project_id vm_name zone run).2 =
      [Invocation.shellPopen (startCommand project_id vm_name zone) 60] ∧
    ((start_gcp_vm project_id vm_name zone run).1.status = "success" ∨
      (start_gcp_vm project_id vm_name zone run).1.status = "error") ∧
    ((start_gcp_vm project_id vm_name zone run).1.status = "error" →
      ((start_gcp_vm project_id vm_name zone run).1.error_message).isSome) ∧
    ((start_gcp_vm project_id vm_name zone run).1.status = "success" →
      ((start_gcp_vm project_id vm_name zone run).1.result).isSome) ∧
    (start_gcp_vm project_id vm_name zone run).1.stdout = none ∧
    (start_gcp_vm project_id vm_name zone run).1.stderr = none := by
  unfold start_gcp_vm
  cases h : run (Invocation.shellPopen (startCommand project_id vm_name zone) 60) with
  | completed rc out err => by_cases h0 : rc = 0 <;> simp [h, h0]
  | timeoutExpired => simp [h]
  | fileNotFound msg => simp [h]
  | otherExc msg => simp [h]

/-- `stop_gcp_vm` always issues exactly one shell-interpreted invocation
with the 60-second timeout, and its result record is well shaped. -/
theorem stop_shape (project_id vm_name zone : String)
    (run : Invocation → Outcome) :
    (stop_gcp_vm project_id vm_name zone run).2 =
      [Invocation.shellPopen (stopCommand project_id vm_name zone) 60] ∧
    ((stop_gcp_vm project_id vm_name zone run).1.status = "success" ∨
      (stop_gcp_vm project_id vm_name zone run).1.status = "error") ∧
    ((stop_gcp_vm project_id vm_name zone run).1.status = "error" →
      ((stop_gcp_vm project_id vm_name zone run).1.error_message).isSome) ∧
    ((stop_gcp_vm project_id vm_name zone run).1.status = "success" →
      ((stop_gcp_vm project_id vm_name zone run).1.result).isSome) ∧
    (stop_gcp_vm project_id vm_name zone run).1.stdout = none ∧
    (stop_gcp_vm project_id vm_name zone run).1.stderr = none := by
  unfold stop_gcp_vm
  cases h : run (Invocation.shellPopen (stopCommand project_id vm_name zone) 60) with
  | completed rc out err => by_cases h0 : rc = 0 <;> simp [h, h0]
  | timeoutExpired => simp [h]
  | fileNotFound msg => simp [h]
  | otherExc msg => simp [h]

/-- `delete_gcp_vm` always issues exactly one shell-interpreted invocation
with the 60-second timeout, and its result record is well shaped. -/
theorem delete_shape (project_id vm_name zone : String)
    (run : Invocation → Outcome) :
    (delete_gcp_vm project_id vm_name zone run).2 =
      [Invocation.shellPopen (deleteCommand project_id vm_name zone) 60] ∧
    ((delete_gcp_vm project_id vm_name zone run).1.status = "success" ∨
      (delete_gcp_vm project_id vm_name zone run).1.status = "error") ∧
    ((delete_gcp_vm project_id vm_name zone run).1.status = "error" →
      ((delete_gcp_vm project_id vm_name zone run).1.error_message).isSome) ∧
    ((delete_gcp_vm project_id vm_name zone run).1.status = "success" →
      ((delete_gcp_vm project_id vm_name zone run).1.result).isSome) ∧
    (delete_gcp_vm project_id vm_name zone run).1.stdout = none ∧
    (delete_gcp_vm project_id vm_name zone run).1.stderr = none := by
  unfold delete_gcp_vm
  cases h : run (Invocation.shellPopen (deleteCommand project_id vm_name zone) 60) with
  | completed rc out err => by_cases h0 : rc = 0 <;> simp [h, h0]
  | timeoutExpired => simp [h]
  | fileNotFound msg => simp [h]
  | otherExc msg => simp [h]

/-- Merging the numeric piece of `timeoutExpiredStr` into one literal. -/
theorem timeoutExpiredStr_eq (cmd : String) :
    timeoutExpiredStr cmd 60 =
      "Command '" ++ cmd ++ "' timed out after 60 seconds" := by
  unfold timeoutExpiredStr
  apply String.ext
  simp only [String.data_append, List.append_assoc]
  congr 2

/-- A successful `createExec` with a nonempty network description reports
that description in its result message. -/
theorem createExec_success_result (vm_name zone network_info : String)
    (command_parts : List String) (run : Invocation → Outcome)
    (hni : network_info ≠ "")
    (hs : (createExec vm_name zone network_info command_parts run).1.status =
      "success") :
    (createExec vm_name zone network_info command_parts run).1.result =
      some ("Successfully created VM '" ++ vm_name ++ "' in zone '" ++ zone ++
        "'" ++ " on " ++ network_info ++ ".") := by
  unfold createExec at hs ⊢
  cases h : run (Invocation.argvRun command_parts true 180) with
  | completed rc out err =>
    by_cases h0 : rc = 0
    · simp [h, h0, hni]
    · simp [h, h0] at hs
  | timeoutExpired => simp [h] at hs
  | fileNotFound msg => simp [h] at hs
  | otherExc msg => simp [h] at hs

/-! ### The claims -/

/-- C1: for every call to `create_gcp_vm`, if `subnetwork` is non-empty the
built argument list carries the subnet selector for it and no network
selector at all (so the `network` parameter is ignored); else if `network`
is non-empty the argument list carries the network selector for it; else
the call returns the validation error result with message "Network or
Subnetwork must be specified." and issues no child-process invocation.
(The hypothesis rules out a degenerate `vm_name` that itself spells a
network selector.) -/
theorem create_network_selection_policy
    (project_id zone vm_name network subnetwork machine_type image_family
      image_project : String) (run : Invocation → Outcome)
    (hvm : ∀ s, vm_name ≠ "--network=" ++ s) :
    (subnetwork ≠ "" →
      ∃ args, (create_gcp_vm project_id zone vm_name network subnetwork
          machine_type image_family image_project run).2 =
          [Invocation.argvRun args true 180] ∧
        ("--subnet=" ++ subnetwork) ∈ args ∧
        ∀ s, ("--network=" ++ s) ∉ args) ∧
    (subnetwork = "" → network ≠ "" →
      ∃ args, (create_gcp_vm project_id zone vm_name network subnetwork
          machine_type image_family image_project run).2 =
          [Invocation.argvRun args true 180] ∧
        ("--network=" ++ network) ∈ args) ∧
    (subnetwork = "" → network = "" →
      create_gcp_vm project_id zone vm_name network subnetwork machine_type
          image_family image_project run =
        ({ status := "error",
           error_message := some "Network or Subnetwork must be specified." },
         [])) := by
  refine ⟨fun hsub => ?_, fun hsub hnet => ?_, fun hsub hnet =>
    create_gcp_vm_invalid _ _ _ _ _ _ _ _ _ hsub hnet⟩
  · refine ⟨createBaseParts project_id zone vm_name machine_type image_family
      image_project ++ ["--subnet=" ++ subnetwork], ?_, ?_, ?_⟩
    · rw [create_gcp_vm_subnet _ _ _ _ _ _ _ _ _ hsub, createExec_trace]
    · simp
    · intro s hs
      simp only [createBaseParts, List.mem_append, List.mem_cons,
        List.mem_singleton, List.not_mem_nil, or_false] at hs
      rcases hs with (h|h|h|h|h|h|h|h|h|h|h)|h
      · exact append_ne_lit _ _ _ (by decide) h
      · exact append_ne_lit _ _ _ (by decide) h
      · exact append_ne_lit _ _ _ (by decide) h
      · exact append_ne_lit _ _ _ (by decide) h
      · exact hvm s h.symm
      · exact append_ne_take _ _ _ _ 3 (by decide) (by decide) (by decide) h
      · exact append_ne_take _ _ _ _ 3 (by decide) (by decide) (by decide) h
      · exact append_ne_take _ _ _ _ 3 (by decide) (by decide) (by decide) h
      · exact append_ne_take _ _ _ _ 3 (by decide) (by decide) (by decide) h
      · exact append_ne_take _ _ _ _ 3 (by decide) (by decide) (by decide) h
      · exact append_ne_lit _ _ _ (by decide) h
      · exact append_ne_take _ _ _ _ 3 (by decide) (by decide) (by decide) h
  · refine ⟨createBaseParts project_id zone vm_name machine_type image_family
      image_project ++ ["--network=" ++ network], ?_, ?_⟩
    · rw [create_gcp_vm_network _ _ _ _ _ _ _ _ _ hsub hnet, createExec_trace]
    · simp

/-- Witness for C1 at concrete inputs ("vm1", subnetwork "test1"). -/
theorem create_network_selection_policy_witness :
    (∀ s, "vm1" ≠ "--network=" ++ s) ∧
    (("test1" : String) ≠ "" →
      ∃ args, (create_gcp_vm "proj1" "us-central1-a" "vm1" "test" "test1"
          "n1-standard-1" "debian-11" "debian-cloud"
          (fun _ => Outcome.completed 0 "" "")).2 =
          [Invocation.argvRun args true 180] ∧
        ("--subnet=" ++ "test1") ∈ args ∧
        ∀ s, ("--network=" ++ s) ∉ args) ∧
    (("test1" : String) = "" → ("test" : String) ≠ "" →
      ∃ args, (create_gcp_vm "proj1" "us-central1-a" "vm1" "test" "test1"
          "n1-standard-1" "debian-11" "debian-cloud"
          (fun _ => Outcome.completed 0 "" "")).2 =
          [Invocation.argvRun args true 180] ∧
        ("--network=" ++ "test") ∈ args) ∧
    (("test1" : String) = "" → ("test" : String) = "" →
      create_gcp_vm "proj1" "us-central1-a" "vm1" "test" "test1"
          "n1-standard-1" "debian-11" "debian-cloud"
          (fun _ => Outcome.completed 0 "" "") =
        ({ status := "error",
           error_message := some "Network or Subnetwork must be specified." },
         [])) :=
  have hvm : ∀ s, "vm1" ≠ "--network=" ++ s :=
    fun s => (append_ne_lit "--network=" s "vm1" (by decide)).symm
  ⟨hvm, create_network_selection_policy "proj1" "us-central1-a" "vm1" "test"
    "test1" "n1-standard-1" "debian-11" "debian-cloud"
    (fun _ => Outcome.completed 0 "" "") hvm⟩

/-- C2: every one of the four operations, for every child-process outcome,
returns a result record whose status is "success" or "error" — in the
embedding each operation is a total function into result records, so no
exception propagates to the caller.  Moreover, once `create_gcp_vm` has
selected a network or subnetwork, a timeout yields the timeout error
message, a missing binary yields the installation-hint message, and any
other exception yields a message carrying the exception text. -/
theorem operations_always_return_result
    (project_id zone vm_name network subnetwork machine_type image_family
      image_project m : String) (run : Invocation → Outcome) :
    ((create_gcp_vm project_id zone vm_name network subnetwork machine_type
        image_family image_project run).1.status = "success" ∨
      (create_gcp_vm project_id zone vm_name network subnetwork machine_type
        image_family image_project run).1.status = "error") ∧
    ((start_gcp_vm project_id vm_name zone run).1.status = "success" ∨
      (start_gcp_vm project_id vm_name zone run).1.status = "error") ∧
    ((stop_gcp_vm project_id vm_name zone run).1.status = "success" ∨
      (stop_gcp_vm project_id vm_name zone run).1.status = "error") ∧
    ((delete_gcp_vm project_id vm_name zone run).1.status = "success" ∨
      (delete_gcp_vm project_id vm_name zone run).1.status = "error") ∧
    (subnetwork ≠ "" ∨ network ≠ "" →
      (create_gcp_vm project_id zone vm_name network subnetwork machine_type
          image_family image_project (fun _ => Outcome.timeoutExpired)).1 =
        { status := "error",
          error_message := some ("Timeout occurred while trying to create VM '" ++
            vm_name ++ "'.") } ∧
      (create_gcp_vm project_id zone vm_name network subnetwork machine_type
          image_family image_project (fun _ => Outcome.fileNotFound m)).1 =
        { status := "error",
          error_message := some "Error: 'gcloud' command not found. Make sure Google Cloud SDK is installed and in your PATH." } ∧
      (create_gcp_vm project_id zone vm_name network subnetwork machine_type
          image_family image_project (fun _ => Outcome.otherExc m)).1 =
        { status := "error",
          error_message := some ("An unexpected error occurred: " ++ m) }) := by
  have hc : ∀ r : Invocation → Outcome,
      (create_gcp_vm project_id zone vm_name network subnetwork machine_type
        image_family image_project r).1.status = "success" ∨
      (create_gcp_vm project_id zone vm_name network subnetwork machine_type
        image_family image_project r).1.status = "error" := by
    intro r
    by_cases hsub : subnetwork = ""
    · by_cases hnet : network = ""
      · rw [create_gcp_vm_invalid _ _ _ _ _ _ _ _ _ hsub hnet]
        right
        rfl
      · rw [create_gcp_vm_network _ _ _ _ _ _ _ _ _ hsub hnet]
        exact (createExec_shape _ _ _ _ _).1
    · rw [create_gcp_vm_subnet _ _ _ _ _ _ _ _ _ hsub]
      exact (createExec_shape _ _ _ _ _).1
  refine ⟨hc run, (start_shape _ _ _ _).2.1, (stop_shape _ _ _ _).2.1,
    (delete_shape _ _ _ _).2.1, fun hsel => ?_⟩
  by_cases hsub : subnetwork = ""
  · rcases hsel with hne | hnet
    · exact absurd hsub hne
    · rw [create_gcp_vm_network _ _ _ _ _ _ _ _ _ hsub hnet,
        create_gcp_vm_network _ _ _ _ _ _ _ _ _ hsub hnet,
        create_gcp_vm_network _ _ _ _ _ _ _ _ _ hsub hnet]
      exact ⟨createExec_timeout _ _ _ _ _ rfl,
        createExec_fnf _ _ _ _ _ m rfl, createExec_exc _ _ _ _ _ m rfl⟩
  · rw [create_gcp_vm_subnet _ _ _ _ _ _ _ _ _ hsub,
      create_gcp_vm_subnet _ _ _ _ _ _ _ _ _ hsub,
      create_gcp_vm_subnet _ _ _ _ _ _ _ _ _ hsub]
    exact ⟨createExec_timeout _ _ _ _ _ rfl,
      createExec_fnf _ _ _ _ _ m rfl, createExec_exc _ _ _ _ _ m rfl⟩

/-- Witness for C2: the create-specific error results at concrete inputs. -/
theorem operations_always_return_result_witness :
    (("test1" : String) ≠ "" ∨ ("test" : String) ≠ "") ∧
    (create_gcp_vm "proj1" "us-central1-a" "vm1" "test" "test1"
        "n1-standard-1" "debian-11" "debian-cloud"
        (fun _ => Outcome.timeoutExpired)).1 =
      { status := "error",
        error_message := some ("Timeout occurred while trying to create VM '" ++
          "vm1" ++ "'.") } ∧
    (create_gcp_vm "proj1" "us-central1-a" "vm1" "test" "test1"
        "n1-standard-1" "debian-11" "debian-cloud"
        (fun _ => Outcome.fileNotFound "no gcloud")).1 =
      { status := "error",
        error_message := some "Error: 'gcloud' command not found. Make sure Google Cloud SDK is installed and in your PATH." } ∧
    (create_gcp_vm "proj1" "us-central1-a" "vm1" "test" "test1"
        "n1-standard-1" "debian-11" "debian-cloud"
        (fun _ => Outcome.otherExc "boom")).1 =
      { status := "error",
        error_message := some ("An unexpected error occurred: " ++ "boom") } :=
  ⟨Or.inl (by decide),
    (operations_always_return_result "proj1" "us-central1-a" "vm1" "test"
      "test1" "n1-standard-1" "debian-11" "debian-cloud" "no gcloud"
      (fun _ => Outcome.otherExc "boom")).2.2.2.2 (Or.inl (by decide)) |>.1,
    (operations_always_return_result "proj1" "us-central1-a" "vm1" "test"
      "test1" "n1-standard-1" "debian-11" "debian-cloud" "no gcloud"
      (fun _ => Outcome.otherExc "boom")).2.2.2.2 (Or.inl (by decide)) |>.2.1,
    (operations_always_return_result "proj1" "us-central1-a" "vm1" "test"
      "test1" "n1-standard-1" "debian-11" "debian-cloud" "boom"
      (fun _ => Outcome.otherExc "boom")).2.2.2.2 (Or.inl (by decide)) |>.2.2⟩

/-- C3: when the child process exceeds its timeout, every operation returns
status "error" with a timeout-specific message: `create_gcp_vm` (180-second
timeout, recorded in the issued invocation) returns its dedicated timeout
message, and the other three (60-second timeout) catch
`subprocess.TimeoutExpired` in their generic handler, whose text says the
command timed out after 60 seconds.  Each operation returns rather than
hanging: it is a total function of the outcome. -/
theorem timeout_yields_timeout_error
    (project_id zone vm_name network subnetwork machine_type image_family
      image_project : String)
    (hsel : subnetwork ≠ "" ∨ network ≠ "") :
    (∃ args, create_gcp_vm project_id zone vm_name network subnetwork
        machine_type image_family image_project
        (fun _ => Outcome.timeoutExpired) =
      ({ status := "error",
         error_message := some ("Timeout occurred while trying to create VM '" ++
           vm_name ++ "'.") },
       [Invocation.argvRun args true 180])) ∧
    start_gcp_vm project_id vm_name zone (fun _ => Outcome.timeoutExpired) =
      ({ status := "error",
         error_message := some ("An error occurred: " ++
           ("Command '" ++ startCommand project_id vm_name zone ++
             "' timed out after 60 seconds")) },
       [Invocation.shellPopen (startCommand project_id vm_name zone) 60]) ∧
    stop_gcp_vm project_id vm_name zone (fun _ => Outcome.timeoutExpired) =
      ({ status := "error",
         error_message := some ("An error occurred: " ++
           ("Command '" ++ stopCommand project_id vm_name zone ++
             "' timed out after 60 seconds")) },
       [Invocation.shellPopen (stopCommand project_id vm_name zone) 60]) ∧
    delete_gcp_vm project_id vm_name zone (fun _ => Outcome.timeoutExpired) =
      ({ status := "error",
         error_message := some ("An error occurred: " ++
           ("Command '" ++ deleteCommand project_id vm_name zone ++
             "' timed out after 60 seconds")) },
       [Invocation.shellPopen (deleteCommand project_id vm_name zone) 60]) := by
  refine ⟨?_, ?_, ?_, ?_⟩
  · by_cases hsub : subnetwork = ""
    · rcases hsel with hne | hnet
      · exact absurd hsub hne
      · refine ⟨createBaseParts project_id zone vm_name machine_type
          image_family image_project ++ ["--network=" ++ network], ?_⟩
        rw [create_gcp_vm_network _ _ _ _ _ _ _ _ _ hsub hnet]
        exact Prod.ext (createExec_timeout _ _ _ _ _ rfl) (createExec_trace _ _ _ _ _)
    · refine ⟨createBaseParts project_id zone vm_name machine_type
        image_family image_project ++ ["--subnet=" ++ subnetwork], ?_⟩
      rw [create_gcp_vm_subnet _ _ _ _ _ _ _ _ _ hsub]
      exact Prod.ext (createExec_timeout _ _ _ _ _ rfl) (createExec_trace _ _ _ _ _)
  · unfold start_gcp_vm
    rw [← timeoutExpiredStr_eq]
  · unfold stop_gcp_vm
    rw [← timeoutExpiredStr_eq]
  · unfold delete_gcp_vm
    rw [← timeoutExpiredStr_eq]

/-- Witness for C3 at concrete inputs. -/
theorem timeout_yields_timeout_error_witness :
    (("test1" : String) ≠ "" ∨ ("test" : String) ≠ "") ∧
    ∃ args, create_gcp_vm "proj1" "us-central1-a" "vm1" "test" "test1"
        "n1-standard-1" "debian-11" "debian-cloud"
        (fun _ => Outcome.timeoutExpired) =
      ({ status := "error",
         error_message := some ("Timeout occurred while trying to create VM '" ++
           "vm1" ++ "'.") },
       [Invocation.argvRun args true 180]) :=
  ⟨Or.inl (by decide),
    (timeout_yields_timeout_error "proj1" "us-central1-a" "vm1" "test" "test1"
      "n1-standard-1" "debian-11" "debian-cloud" (Or.inl (by decide))).1⟩

/-- C4: a non-zero child-process exit code makes every operation return
status "error" with the child's trimmed standard-error content included in
the message (and, for `create_gcp_vm`, also stored raw in the `stderr`
field). -/
theorem nonzero_exit_yields_stderr_error
    (project_id zone vm_name network subnetwork machine_type image_family
      image_project out err : String) (rc : Int) (hrc : rc ≠ 0)
    (hsel : subnetwork ≠ "" ∨ network ≠ "") :
    (create_gcp_vm project_id zone vm_name network subnetwork machine_type
        image_family image_project (fun _ => Outcome.completed rc out err)).1 =
      { status := "error",
        error_message := some ("Failed to create VM '" ++ vm_name ++ "': " ++
          err.trim),
        stderr := some err.trim } ∧
    (start_gcp_vm project_id vm_name zone
        (fun _ => Outcome.completed rc out err)).1 =
      { status := "error",
        error_message := some ("Failed to start VM '" ++ vm_name ++ "': " ++
          err.trim) } ∧
    (stop_gcp_vm project_id vm_name zone
        (fun _ => Outcome.completed rc out err)).1 =
      { status := "error",
        error_message := some ("Failed to stop VM '" ++ vm_name ++ "': " ++
          err.trim) } ∧
    (delete_gcp_vm project_id vm_name zone
        (fun _ => Outcome.completed rc out err)).1 =
      { status := "error",
        error_message := some ("Failed to delete VM '" ++ vm_name ++ "': " ++
          err.trim) } := by
  refine ⟨?_, ?_, ?_, ?_⟩
  · by_cases hsub : subnetwork = ""
    · rcases hsel with hne | hnet
      · exact absurd hsub hne
      · rw [create_gcp_vm_network _ _ _ _ _ _ _ _ _ hsub hnet]
        exact createExec_nonzero _ _ _ _ _ rc out err rfl hrc
    · rw [create_gcp_vm_subnet _ _ _ _ _ _ _ _ _ hsub]
      exact createExec_nonzero _ _ _ _ _ rc out err rfl hrc
  · unfold start_gcp_vm
    simp [hrc]
  · unfold stop_gcp_vm
    simp [hrc]
  · unfold delete_gcp_vm
    simp [hrc]

/-- Witness for C4 at concrete inputs (exit code 1, stderr " boom "). -/
theorem nonzero_exit_yields_stderr_error_witness :
    ((1 : Int) ≠ 0) ∧ (("test1" : String) ≠ "" ∨ ("test" : String) ≠ "") ∧
    (create_gcp_vm "proj1" "us-central1-a" "vm1" "test" "test1"
        "n1-standard-1" "debian-11" "debian-cloud"
        (fun _ => Outcome.completed 1 "" " boom ")).1 =
      { status := "error",
        error_message := some ("Failed to create VM '" ++ "vm1" ++ "': " ++
          (" boom " : String).trim),
        stderr := some (" boom " : String).trim } :=
  ⟨by decide, Or.inl (by decide),
    (nonzero_exit_yields_stderr_error "proj1" "us-central1-a" "vm1" "test"
      "test1" "n1-standard-1" "debian-11" "debian-cloud" "" " boom " 1
      (by decide) (Or.inl (by decide))).1⟩

/-- C5: a zero exit code makes every operation return status "success" with
its operation-specific message; `create_gcp_vm`'s success message
additionally names the subnet or network used and the record carries the
child's trimmed stdout. -/
theorem zero_exit_yields_success
    (project_id zone vm_name network subnetwork machine_type image_family
      image_project out err : String) :
    (subnetwork ≠ "" →
      (create_gcp_vm project_id zone vm_name network subnetwork machine_type
          image_family image_project (fun _ => Outcome.completed 0 out err)).1 =
        { status := "success",
          result := some ("Successfully created VM '" ++ vm_name ++
            "' in zone '" ++ zone ++ "'" ++ " on " ++
            ("subnet '" ++ subnetwork ++ "'") ++ "."),
          stdout := some out.trim }) ∧
    (subnetwork = "" → network ≠ "" →
      (create_gcp_vm project_id zone vm_name network subnetwork machine_type
          image_family image_project (fun _ => Outcome.completed 0 out err)).1 =
        { status := "success",
          result := some ("Successfully created VM '" ++ vm_name ++
            "' in zone '" ++ zone ++ "'" ++ " on " ++
            ("network '" ++ network ++ "'") ++ "."),
          stdout := some out.trim }) ∧
    (start_gcp_vm project_id vm_name zone
        (fun _ => Outcome.completed 0 out err)).1 =
      { status := "success",
        result := some ("Successfully started VM '" ++ vm_name ++
          "' in zone '" ++ zone ++ "'.") } ∧
    (stop_gcp_vm project_id vm_name zone
        (fun _ => Outcome.completed 0 out err)).1 =
      { status := "success",
        result := some ("Successfully stopped VM '" ++ vm_name ++
          "' in zone '" ++ zone ++ "'.") } ∧
    (delete_gcp_vm project_id vm_name zone
        (fun _ => Outcome.completed 0 out err)).1 =
      { status := "success",
        result := some ("Successfully deleted VM '" ++ vm_name ++
          "' in zone '" ++ zone ++ "'.") } := by
  refine ⟨fun hsub => ?_, fun hsub hnet => ?_, ?_, ?_, ?_⟩
  · rw [create_gcp_vm_subnet _ _ _ _ _ _ _ _ _ hsub]
    exact createExec_zero _ _ _ _ _ out err rfl
      (append_lit_ne_empty _ _ (by decide))
  · rw [create_gcp_vm_network _ _ _ _ _ _ _ _ _ hsub hnet]
    exact createExec_zero _ _ _ _ _ out err rfl
      (append_lit_ne_empty _ _ (by decide))
  · unfold start_gcp_vm
    simp
  · unfold stop_gcp_vm
    simp
  · unfold delete_gcp_vm
    simp

/-- Witness for C5 at concrete inputs. -/
theorem zero_exit_yields_success_witness :
    ("test1" : String) ≠ "" ∧
    (create_gcp_vm "proj1" "us-central1-a" "vm1" "test" "test1"
        "n1-standard-1" "debian-11" "debian-cloud"
        (fun _ => Outcome.completed 0 " done " "")).1 =
      { status := "success",
        result := some ("Successfully created VM '" ++ "vm1" ++
          "' in zone '" ++ "us-central1-a" ++ "'" ++ " on " ++
          ("subnet '" ++ "test1" ++ "'") ++ "."),
        stdout := some (" done " : String).trim } :=
  ⟨by decide,
    (zero_exit_yields_success "proj1" "us-central1-a" "vm1" "test" "test1"
      "n1-standard-1" "debian-11" "debian-cloud" " done " "").1 (by decide)⟩

/-- C6: every call to `create_gcp_vm` that reaches child-process execution
(issues any invocation at all) issues exactly one invocation, in
argument-list form with stdout/stderr captured as text and a 180-second
timeout, whose argument list always contains the instance name, the
project, zone, machine type, image family and image project selectors, and
the non-interactive flag `--quiet`. -/
theorem create_invocation_form
    (project_id zone vm_name network subnetwork machine_type image_family
      image_project : String) (run : Invocation → Outcome)
    (hrun : (create_gcp_vm project_id zone vm_name network subnetwork
      machine_type image_family image_project run).2 ≠ []) :
    ∃ args, (create_gcp_vm project_id zone vm_name network subnetwork
        machine_type image_family image_project run).2 =
        [Invocation.argvRun args true 180] ∧
      vm_name ∈ args ∧ ("--project=" ++ project_id) ∈ args ∧
      ("--zone=" ++ zone) ∈ args ∧ ("--machine-type=" ++ machine_type) ∈ args ∧
      ("--image-family=" ++ image_family) ∈ args ∧
      ("--image-project=" ++ image_project) ∈ args ∧ "--quiet" ∈ args := by
  by_cases hsub : subnetwork = ""
  · by_cases hnet : network = ""
    · rw [create_gcp_vm_invalid _ _ _ _ _ _ _ _ _ hsub hnet] at hrun
      exact absurd rfl hrun
    · refine ⟨createBaseParts project_id zone vm_name machine_type
        image_family image_project ++ ["--network=" ++ network],
        ?_, ?_, ?_, ?_, ?_, ?_, ?_, ?_⟩
      · rw [create_gcp_vm_network _ _ _ _ _ _ _ _ _ hsub hnet, createExec_trace]
      all_goals simp [createBaseParts]
  · refine ⟨createBaseParts project_id zone vm_name machine_type
      image_family image_project ++ ["--subnet=" ++ subnetwork],
      ?_, ?_, ?_, ?_, ?_, ?_, ?_, ?_⟩
    · rw [create_gcp_vm_subnet _ _ _ _ _ _ _ _ _ hsub, createExec_trace]
    all_goals simp [createBaseParts]

/-- Witness for C6 at concrete inputs. -/
theorem create_invocation_form_witness :
    (create_gcp_vm "proj1" "us-central1-a" "vm1" "test" "test1"
      "n1-standard-1" "debian-11" "debian-cloud"
      (fun _ => Outcome.completed 0 "" "")).2 ≠ [] ∧
    ∃ args, (create_gcp_vm "proj1" "us-central1-a" "vm1" "test" "test1"
        "n1-standard-1" "debian-11" "debian-cloud"
        (fun _ => Outcome.completed 0 "" "")).2 =
        [Invocation.argvRun args true 180] ∧
      "vm1" ∈ args ∧ ("--project=" ++ "proj1") ∈ args ∧
      ("--zone=" ++ "us-central1-a") ∈ args ∧
      ("--machine-type=" ++ "n1-standard-1") ∈ args ∧
      ("--image-family=" ++ "debian-11") ∈ args ∧
      ("--image-project=" ++ "debian-cloud") ∈ args ∧ "--quiet" ∈ args :=
  ⟨by decide,
    create_invocation_form "proj1" "us-central1-a" "vm1" "test" "test1"
      "n1-standard-1" "debian-11" "debian-cloud"
      (fun _ => Outcome.completed 0 "" "") (by decide)⟩

/-- C7: start, stop and delete each construct a single shell-interpreted
command string — the corresponding subcommand with the instance name, the
project and the zone, with stop and delete additionally ending in the
non-interactive flag `--quiet` while start's string carries no such flag —
and issue it as exactly one shell invocation with a 60-second timeout,
whatever the child-process outcome. -/
theorem ssd_shell_invocations (project_id vm_name zone : String)
    (run : Invocation → Outcome) :
    (start_gcp_vm project_id vm_name zone run).2 =
      [Invocation.shellPopen ("gcloud compute instances start " ++ vm_name ++
        " --project=" ++ project_id ++ " --zone=" ++ zone) 60] ∧
    (stop_gcp_vm project_id vm_name zone run).2 =
      [Invocation.shellPopen ("gcloud compute instances stop " ++ vm_name ++
        " --project=" ++ project_id ++ " --zone=" ++ zone ++ " --quiet") 60] ∧
    (delete_gcp_vm project_id vm_name zone run).2 =
      [Invocation.shellPopen ("gcloud compute instances delete " ++ vm_name ++
        " --project=" ++ project_id ++ " --zone=" ++ zone ++ " --quiet") 60] :=
  ⟨(start_shape _ _ _ _).1, (stop_shape _ _ _ _).1, (delete_shape _ _ _ _).1⟩

/-- C8: the concrete scenario — create with project "proj1", zone
"us-central1-a", VM name "vm1" and every other parameter at its default —
issues the `instances create vm1` invocation whose arguments include
"--subnet=test1", and on exit code 0 the success message contains
"subnet 'test1'". -/
theorem create_defaults_scenario :
    create_gcp_vm "proj1" "us-central1-a" "vm1" default_network
        default_subnetwork default_machine_type default_image_family
        default_image_project (fun _ => Outcome.completed 0 " ok " "") =
      ({ status := "success",
         result := some ("Successfully created VM 'vm1' in zone 'us-central1-a' on " ++
           "subnet 'test1'" ++ "."),
         stdout := some (" ok " : String).trim },
       [Invocation.argvRun ["gcloud", "compute", "instances", "create", "vm1",
         "--project=proj1", "--zone=us-central1-a",
         "--machine-type=n1-standard-1", "--image-family=debian-11",
         "--image-project=debian-cloud", "--quiet", "--subnet=test1"]
         true 180]) ∧
    "--subnet=test1" ∈ ["gcloud", "compute", "instances", "create", "vm1",
      "--project=proj1", "--zone=us-central1-a",
      "--machine-type=n1-standard-1", "--image-family=debian-11",
      "--image-project=debian-cloud", "--quiet", "--subnet=test1"] :=
  ⟨rfl, by decide⟩

/-- C9: the fallback success-message branch that appends only "." (taken
when no network/subnet description was recorded) is unreachable: whenever
`create_gcp_vm` returns status "success", the selection step has already
set a non-empty description, so the success message always ends by naming
the network or subnet used. -/
theorem create_success_always_names_network
    (project_id zone vm_name network subnetwork machine_type image_family
      image_project : String) (run : Invocation → Outcome)
    (hs : (create_gcp_vm project_id zone vm_name network subnetwork
      machine_type image_family image_project run).1.status = "success") :
    ∃ info, info ≠ "" ∧
      (create_gcp_vm project_id zone vm_name network subnetwork machine_type
        image_family image_project run).1.result =
        some ("Successfully created VM '" ++ vm_name ++ "' in zone '" ++
          zone ++ "'" ++ " on " ++ info ++ ".") := by
  by_cases hsub : subnetwork = ""
  · by_cases hnet : network = ""
    · rw [create_gcp_vm_invalid _ _ _ _ _ _ _ _ _ hsub hnet] at hs
      exact absurd hs (by decide)
    · rw [create_gcp_vm_network _ _ _ _ _ _ _ _ _ hsub hnet] at hs ⊢
      exact ⟨"network '" ++ network ++ "'",
        append_lit_ne_empty _ _ (by decide),
        createExec_success_result _ _ _ _ _
          (append_lit_ne_empty _ _ (by decide)) hs⟩
  · rw [create_gcp_vm_subnet _ _ _ _ _ _ _ _ _ hsub] at hs ⊢
    exact ⟨"subnet '" ++ subnetwork ++ "'",
      append_lit_ne_empty _ _ (by decide),
      createExec_success_result _ _ _ _ _
        (append_lit_ne_empty _ _ (by decide)) hs⟩

/-- Witness for C9 at concrete inputs. -/
theorem create_success_always_names_network_witness :
    (create_gcp_vm "proj1" "us-central1-a" "vm1" "test" "test1"
      "n1-standard-1" "debian-11" "debian-cloud"
      (fun _ => Outcome.completed 0 "" "")).1.status = "success" ∧
    ∃ info, info ≠ "" ∧
      (create_gcp_vm "proj1" "us-central1-a" "vm1" "test" "test1"
        "n1-standard-1" "debian-11" "debian-cloud"
        (fun _ => Outcome.completed 0 "" "")).1.result =
        some ("Successfully created VM '" ++ "vm1" ++ "' in zone '" ++
          "us-central1-a" ++ "'" ++ " on " ++ info ++ ".") :=
  ⟨by decide,
    create_success_always_names_network "proj1" "us-central1-a" "vm1" "test"
      "test1" "n1-standard-1" "debian-11" "debian-cloud"
      (fun _ => Outcome.completed 0 "" "") (by decide)⟩

/-- C10: shape invariant of every returned result record, on every path:
when status is "error" the record carries an `error_message` field, when it
is "success" it carries a `result` field; `create_gcp_vm` carries a raw
`stdout` exactly on success and a raw `stderr` only on an error coming
from a non-zero child exit; start, stop and delete never carry raw stdout
or stderr. -/
theorem result_shape_invariant
    (project_id zone vm_name network subnetwork machine_type image_family
      image_project : String) (run : Invocation → Outcome) :
    ((create_gcp_vm project_id zone vm_name network subnetwork machine_type
        image_family image_project run).1.status = "error" →
      ((create_gcp_vm project_id zone vm_name network subnetwork machine_type
        image_family image_project run).1.error_message).isSome) ∧
    ((create_gcp_vm project_id zone vm_name network subnetwork machine_type
        image_family image_project run).1.status = "success" →
      ((create_gcp_vm project_id zone vm_name network subnetwork machine_type
        image_family image_project run).1.result).isSome) ∧
    (((create_gcp_vm project_id zone vm_name network subnetwork machine_type
        image_family image_project run).1.stdout).isSome ↔
      (create_gcp_vm project_id zone vm_name network subnetwork machine_type
        image_family image_project run).1.status = "success") ∧
    (((create_gcp_vm project_id zone vm_name network subnetwork machine_type
        image_family image_project run).1.stderr).isSome →
      (create_gcp_vm project_id zone vm_name network subnetwork machine_type
        image_family image_project run).1.status = "error" ∧
      ∃ args rc out err,
        run (Invocation.argvRun args true 180) = Outcome.completed rc out err ∧
        rc ≠ 0 ∧
        (create_gcp_vm project_id zone vm_name network subnetwork machine_type
          image_family image_project run).1.stderr = some err.trim) ∧
    ((start_gcp_vm project_id vm_name zone run).1.status = "error" →
      ((start_gcp_vm project_id vm_name zone run).1.error_message).isSome) ∧
    ((start_gcp_vm project_id vm_name zone run).1.status = "success" →
      ((start_gcp_vm project_id vm_name zone run).1.result).isSome) ∧
    (start_gcp_vm project_id vm_name zone run).1.stdout = none ∧
    (start_gcp_vm project_id vm_name zone run).1.stderr = none ∧
    ((stop_gcp_vm project_id vm_name zone run).1.status = "error" →
      ((stop_gcp_vm project_id vm_name zone run).1.error_message).isSome) ∧
    ((stop_gcp_vm project_id vm_name zone run).1.status = "success" →
      ((stop_gcp_vm project_id vm_name zone run).1.result).isSome) ∧
    (stop_gcp_vm project_id vm_name zone run).1.stdout = none ∧
    (stop_gcp_vm project_id vm_name zone run).1.stderr = none ∧
    ((delete_gcp_vm project_id vm_name zone run).1.status = "error" →
      ((delete_gcp_vm project_id vm_name zone run).1.error_message).isSome) ∧
    ((delete_gcp_vm project_id vm_name zone run).1.status = "success" →
      ((delete_gcp_vm project_id vm_name zone run).1.result).isSome) ∧
    (delete_gcp_vm project_id vm_name zone run).1.stdout = none ∧
    (delete_gcp_vm project_id vm_name zone run).1.stderr = none := by
  have hc :
      ((create_gcp_vm project_id zone vm_name network subnetwork machine_type
          image_family image_project run).1.status = "error" →
        ((create_gcp_vm project_id zone vm_name network subnetwork machine_type
          image_family image_project run).1.error_message).isSome) ∧
      ((create_gcp_vm project_id zone vm_name network subnetwork machine_type
          image_family image_project run).1.status = "success" →
        ((create_gcp_vm project_id zone vm_name network subnetwork machine_type
          image_family image_project run).1.result).isSome) ∧
      (((create_gcp_vm project_id zone vm_name network subnetwork machine_type
          image_family image_project run).1.stdout).isSome ↔
        (create_gcp_vm project_id zone vm_name network subnetwork machine_type
          image_family image_project run).1.status = "success") ∧
      (((create_gcp_vm project_id zone vm_name network subnetwork machine_type
          image_family image_project run).1.stderr).isSome →
        (create_gcp_vm project_id zone vm_name network subnetwork machine_type
          image_family image_project run).1.status = "error" ∧
        ∃ args rc out err,
          run (Invocation.argvRun args true 180) = Outcome.completed rc out err ∧
          rc ≠ 0 ∧
          (create_gcp_vm project_id zone vm_name network subnetwork machine_type
            image_family image_project run).1.stderr = some err.trim) := by
    by_cases hsub : subnetwork = ""
    · by_cases hnet : network = ""
      · rw [create_gcp_vm_invalid _ _ _ _ _ _ _ _ _ hsub hnet]
        refine ⟨fun _ => rfl, fun h => absurd h (by decide), by decide,
          fun h => absurd h (by decide)⟩
      · rw [create_gcp_vm_network _ _ _ _ _ _ _ _ _ hsub hnet]
        have h := createExec_shape vm_name zone ("network '" ++ network ++ "'")
          (createBaseParts project_id zone vm_name machine_type image_family
            image_project ++ ["--network=" ++ network]) run
        exact ⟨h.2.1, h.2.2.1, h.2.2.2.1,
          fun hx => ⟨(h.2.2.2.2 hx).1, _, (h.2.2.2.2 hx).2⟩⟩
    · rw [create_gcp_vm_subnet _ _ _ _ _ _ _ _ _ hsub]
      have h := createExec_shape vm_name zone ("subnet '" ++ subnetwork ++ "'")
        (createBaseParts project_id zone vm_name machine_type image_family
          image_project ++ ["--subnet=" ++ subnetwork]) run
      exact ⟨h.2.1, h.2.2.1, h.2.2.2.1,
        fun hx => ⟨(h.2.2.2.2 hx).1, _, (h.2.2.2.2 hx).2⟩⟩
  exact ⟨hc.1, hc.2.1, hc.2.2.1, hc.2.2.2,
    (start_shape _ _ _ _).2.2.1, (start_shape _ _ _ _).2.2.2.1,
    (start_shape _ _ _ _).2.2.2.2.1, (start_shape _ _ _ _).2.2.2.2.2,
    (stop_shape _ _ _ _).2.2.1, (stop_shape _ _ _ _).2.2.2.1,
    (stop_shape _ _ _ _).2.2.2.2.1, (stop_shape _ _ _ _).2.2.2.2.2,
    (delete_shape _ _ _ _).2.2.1, (delete_shape _ _ _ _).2.2.2.1,
    (delete_shape _ _ _ _).2.2.2.2.1, (delete_shape _ _ _ _).2.2.2.2.2⟩

/-- Witness for C10: the stderr clause at a concrete non-zero exit. -/
theorem result_shape_invariant_witness :
    (((create_gcp_vm "proj1" "us-central1-a" "vm1" "test" "test1"
        "n1-standard-1" "debian-11" "debian-cloud"
        (fun _ => Outcome.completed 1 "" "boom")).1.stderr).isSome) ∧
    (create_gcp_vm "proj1" "us-central1-a" "vm1" "test" "test1"
      "n1-standard-1" "debian-11" "debian-cloud"
      (fun _ => Outcome.completed 1 "" "boom")).1.status = "error" :=
  ⟨by decide,
    ((result_shape_invariant "proj1" "us-central1-a" "vm1" "test" "test1"
      "n1-standard-1" "debian-11" "debian-cloud"
      (fun _ => Outcome.completed 1 "" "boom")).2.2.2.1 (by decide)).1⟩

end Agent
